import Mathlib

/-!
Verification development for the MiniKart arcade racer core.

Shallow embedding of the simulation core (arcade motion model, grid track
collision, sequential checkpoint validation, AI direction field) over exact
rational arithmetic.  Each definition is translated from the JavaScript
source; presentation-only concerns (meshes, materials, event emission,
console logging) are omitted, and the host math library's trigonometric
functions are passed in as function parameters so that the development
stays executable.
-/

namespace MiniKart

/-- Linear interpolation, as in THREE.MathUtils.lerp. -/
def lerp (x y t : ℚ) : ℚ := x + (y - x) * t

/-- Clamp to an interval, as in THREE.MathUtils.clamp (max lo (min hi v)). -/
def clamp (v lo hi : ℚ) : ℚ := max lo (min hi v)

/-- Sign function, as in Math.sign. -/
def qsign (x : ℚ) : ℚ := if x > 0 then 1 else if x < 0 then -1 else 0

/-- World-space vector with named components, as in THREE.Vector3. -/
structure Vec3 where
  x : ℚ
  y : ℚ
  z : ℚ
deriving DecidableEq, Repr

/-- Per-frame input intents consumed by ArcadeController.update. -/
structure Inputs where
  throttle : ℚ
  brake : ℚ
  steer : ℚ
  drift : Bool
  speedMultiplier : ℚ
deriving DecidableEq, Repr

/-- State of src/physics/ArcadeController.js: the mutable fields together
with the tuning parameters fixed in its constructor. -/
structure ArcadeController where
  speed : ℚ
  acceleration : ℚ
  brakeForce : ℚ
  maxSpeed : ℚ
  reverseSpeed : ℚ
  friction : ℚ
  turnSpeed : ℚ
  minTurnSpeed : ℚ
  isDrifting : Bool
  driftDirection : ℚ
  driftTurnPenalty : ℚ
  driftOutwardPush : ℚ
  driftAngleControl : ℚ
  driftSpeedBonus : ℚ
  driftCharge : ℚ
  driftChargeRate : ℚ
  smoothedOutwardPush : ℚ
  boostTimer : ℚ
  boostSpeed : ℚ
  boostDuration : ℚ
  driftAngle : ℚ
deriving DecidableEq, Repr

/-- Constructor defaults of ArcadeController (options = {}). -/
def ArcadeController.init : ArcadeController where
  speed := 0
  acceleration := 30
  brakeForce := 80
  maxSpeed := 40
  reverseSpeed := 20
  friction := 25
  turnSpeed := 1.25
  minTurnSpeed := 0.4
  isDrifting := false
  driftDirection := 0
  driftTurnPenalty := 0.7
  driftOutwardPush := 0.5
  driftAngleControl := 0.3
  driftSpeedBonus := 1.02
  driftCharge := 0
  driftChargeRate := 1
  smoothedOutwardPush := 0
  boostTimer := 0
  boostSpeed := 50
  boostDuration := 2
  driftAngle := 0

/-- ArcadeController.giveBoost: restart the boost timer to full duration. -/
def ArcadeController.giveBoost (c : ArcadeController) : ArcadeController :=
  { c with boostTimer := c.boostDuration }

/-- Speed-control section of ArcadeController.update (boost handling,
acceleration / braking / friction, final clamp).  Updates the boostTimer
and speed fields of the controller. -/
def ArcadeController.speedControl (c : ArcadeController)
    (delta throttle brake speedMultiplier : ℚ) : ArcadeController :=
  let targetSpeed :=
    if c.boostTimer > 0 then c.boostSpeed * speedMultiplier
    else c.maxSpeed * speedMultiplier
  let boostTimer1 :=
    if c.boostTimer > 0 then c.boostTimer - delta else c.boostTimer
  let speed1 :=
    if c.boostTimer > 0 then c.speed
    else if c.speed > c.maxSpeed * speedMultiplier then
      lerp c.speed (c.maxSpeed * speedMultiplier) (2 * delta)
    else c.speed
  let speed2 :=
    if throttle > 0 then speed1 + c.acceleration * throttle * delta
    else if brake > 0 then speed1 - c.brakeForce * brake * delta
    else if speed1 > 0 then
      let s := speed1 - c.friction * delta
      if s < 0 then 0 else s
    else if speed1 < 0 then
      let s := speed1 + c.friction * delta
      if s > 0 then 0 else s
    else speed1
  let maxAllowedSpeed :=
    if boostTimer1 > 0 then targetSpeed else targetSpeed + 5
  { c with boostTimer := boostTimer1,
           speed := clamp speed2 (-c.reverseSpeed) maxAllowedSpeed }

/-- Return record of ArcadeController.update. -/
structure UpdateResult where
  position : Vec3
  heading : ℚ
  speed : ℚ
  isDrifting : Bool
  boostActive : Bool
  driftCharge : ℚ
  driftAngle : ℚ
  smoothedOutwardPush : ℚ
deriving DecidableEq, Repr

/-- ArcadeController.update, the per-frame motion model step.  The host
sine and cosine (Math.sin / Math.cos) are passed in as parameters; they
only enter the final position update. -/
def ArcadeController.update (c : ArcadeController) (sinF cosF : ℚ → ℚ)
    (delta : ℚ) (position : Vec3) (heading : ℚ) (inputs : Inputs) :
    ArcadeController × UpdateResult :=
  let throttle := inputs.throttle
  let brake := inputs.brake
  let steer := inputs.steer
  let c1 := c.speedControl delta throttle brake inputs.speedMultiplier
  let isMoving : Bool := decide (|c1.speed| > 2)
  let wantsToDrift : Bool := inputs.drift && isMoving && decide (|steer| > 0.3)
  let c2 :=
    if wantsToDrift && !c1.isDrifting then
      { c1 with isDrifting := true, driftDirection := qsign steer,
                driftCharge := 0, driftAngle := 0 }
    else if !wantsToDrift && c1.isDrifting then
      let c2a := { c1 with isDrifting := false }
      let c2b := if c2a.driftCharge ≥ 1 then c2a.giveBoost else c2a
      { c2b with driftCharge := 0, driftDirection := 0, driftAngle := 0 }
    else c1
  let c3 :=
    if c2.isDrifting then
      let driftTargetSpeed := c2.maxSpeed * c2.driftSpeedBonus
      let sp :=
        if c2.speed < driftTargetSpeed then c2.speed + c2.acceleration * 0.2 * delta
        else c2.speed
      let targetDriftAngle := c2.driftDirection * 0.8
      { c2 with driftCharge := c2.driftCharge + c2.driftChargeRate * delta,
                speed := sp,
                driftAngle := lerp c2.driftAngle targetDriftAngle (2.5 * delta) }
    else
      { c2 with driftAngle := lerp c2.driftAngle 0 (8 * delta) }
  let heading1 :=
    if isMoving && decide (|steer| > 0.05) then
      let turnRate := lerp c3.minTurnSpeed c3.turnSpeed (|c3.speed| / c3.maxSpeed)
      let finalTurnRate :=
        if c3.isDrifting then turnRate * c3.driftTurnPenalty else turnRate
      heading - steer * finalTurnRate * delta
    else heading
  let moveDistance := c3.speed * delta
  let targetPush :=
    if c3.isDrifting then c3.driftDirection * c3.driftOutwardPush else 0
  let c4 := { c3 with
    smoothedOutwardPush := lerp c3.smoothedOutwardPush targetPush (5 * delta) }
  let moveHeading := heading1 + c4.smoothedOutwardPush
  let position1 : Vec3 :=
    ⟨position.x + sinF moveHeading * moveDistance,
     position.y,
     position.z + cosF moveHeading * moveDistance⟩
  (c4,
   ⟨position1, heading1, c4.speed, c4.isDrifting, decide (c4.boostTimer > 0),
    c4.driftCharge, c4.driftAngle, c4.smoothedOutwardPush⟩)

/-- Simulation-relevant state of a Kart entity (src/entities/Kart.js);
meshes, visual smoothing fields and debug vectors are omitted. -/
structure Kart where
  pos : Vec3
  heading : ℚ
  speed : ℚ
  controller : ArcadeController
  isDrifting : Bool
  boostActive : Bool
  driftCharge : ℚ
  driftAngle : ℚ
  smoothedOutwardPush : ℚ
deriving DecidableEq, Repr

/-- Kart constructor state (pos (0, 0.5, 0), fresh controller). -/
def Kart.init : Kart where
  pos := ⟨0, 0.5, 0⟩
  heading := 0
  speed := 0
  controller := ArcadeController.init
  isDrifting := false
  boostActive := false
  driftCharge := 0
  driftAngle := 0
  smoothedOutwardPush := 0

/-- Kart.step: run the arcade controller and copy its result back onto the
kart entity.  The speed copy reproduces the source line
src/entities/Kart.js:173, which reads result.speed + 5000. -/
def Kart.step (k : Kart) (sinF cosF : ℚ → ℚ) (delta : ℚ) (inputs : Inputs) : Kart :=
  let out := k.controller.update sinF cosF delta k.pos k.heading inputs
  { k with pos := out.2.position,
           heading := out.2.heading,
           speed := out.2.speed + 5000,
           controller := out.1,
           isDrifting := out.2.isDrifting,
           boostActive := out.2.boostActive,
           driftCharge := out.2.driftCharge,
           driftAngle := out.2.driftAngle,
           smoothedOutwardPush := out.2.smoothedOutwardPush }

/-- Simulation-relevant fields of a tile definition from
src/track/TileRegistry.js (visual fields omitted).  collision records
whether a kart can drive on the tile; speedMultiplier is absent (none) on
tiles that define no off-road slowdown. -/
structure Tile where
  collision : Bool
  speedMultiplier : Option ℚ
deriving DecidableEq, Repr

/-- TileRegistry.EMPTY, also the getTile fallback for unknown ids. -/
def emptyTile : Tile := ⟨false, none⟩

/-- Simulation-relevant state of src/track/Track.js: the tile grid and the
tile size.  Width and height are derived from the data exactly as
Track.buildTrack derives them. -/
structure Track where
  tileSize : ℚ
  trackData : List (List Tile)
deriving DecidableEq, Repr

/-- Track height in tiles (buildTrack: this.trackData.length). -/
def Track.height (t : Track) : ℕ := t.trackData.length

/-- Track width in tiles (buildTrack: this.trackData[0]?.length ?? 0). -/
def Track.width (t : Track) : ℕ :=
  (t.trackData.head?.map List.length).getD 0

/-- Track.worldToGrid: floor division into grid coordinates with a bounds
check (null for positions outside the grid). -/
def Track.worldToGrid (t : Track) (position : Vec3) : Option (ℤ × ℤ) :=
  let col : ℤ := Int.floor ((position.x + (t.width * t.tileSize) / 2) / t.tileSize)
  let row : ℤ := Int.floor ((position.z + (t.height * t.tileSize) / 2) / t.tileSize)
  if row < 0 ∨ (t.height : ℤ) ≤ row ∨ col < 0 ∨ (t.width : ℤ) ≤ col then none
  else some (row, col)

/-- Track.gridToWorld: world center of a grid cell, null out of range. -/
def Track.gridToWorld (t : Track) (row col : ℤ) : Option Vec3 :=
  if row < 0 ∨ (t.height : ℤ) ≤ row ∨ col < 0 ∨ (t.width : ℤ) ≤ col then none
  else some
    ⟨((col : ℚ) - (t.width : ℚ) / 2) * t.tileSize + t.tileSize / 2,
     0.5,
     ((row : ℚ) - (t.height : ℚ) / 2) * t.tileSize + t.tileSize / 2⟩

/-- Track.getTileAtPosition: grid lookup through worldToGrid.  A missing
entry in a ragged row maps to the EMPTY tile exactly as getTile(undefined)
falls back to TileRegistry.EMPTY. -/
def Track.getTileAtPosition (t : Track) (position : Vec3) : Option Tile :=
  match t.worldToGrid position with
  | none => none
  | some rc =>
      some ((((t.trackData.get? rc.1.toNat).bind
        fun rowTiles => rowTiles.get? rc.2.toNat)).getD emptyTile)

/-- Track.isOutOfBounds: no tile, or a tile the kart cannot drive on. -/
def Track.isOutOfBounds (t : Track) (position : Vec3) : Bool :=
  match t.getTileAtPosition position with
  | none => true
  | some tile => !tile.collision

/-- Track.getSpeedMultiplier: tile?.speedMultiplier ?? 1.0. -/
def Track.getSpeedMultiplier (t : Track) (position : Vec3) : ℚ :=
  match t.getTileAtPosition position with
  | none => 1
  | some tile => tile.speedMultiplier.getD 1

/-- Wall-hit kind reported through the wall-hit event. -/
inductive WallHit where
  | slide
  | stop
deriving DecidableEq, Repr

/-- Game option default wallSlideSpeedPenalty (?? 0.7). -/
def Game.wallSlideSpeedPenalty : ℚ := 0.7

/-- Game option default wallStopSpeedPenalty (?? 0.5). -/
def Game.wallStopSpeedPenalty : ℚ := 0.5

/-- Game.tryWallSlide: axis-separated slide candidates, X axis first. -/
def Game.tryWallSlide (track : Track) (prevPos newPos : Vec3) : Option Vec3 :=
  let slideX : Vec3 := ⟨newPos.x, prevPos.y, prevPos.z⟩
  if !track.isOutOfBounds slideX then some slideX
  else
    let slideZ : Vec3 := ⟨prevPos.x, prevPos.y, newPos.z⟩
    if !track.isOutOfBounds slideZ then some slideZ
    else none

/-- Game.handleCollisions: resolve a wall hit by sliding or stopping,
applying the speed penalty to both the kart and its controller.  The
second component records the wall-hit event payload type (none when no
collision occurred). -/
def Game.handleCollisions (track : Track) (prevPos : Vec3) (k : Kart) :
    Kart × Option WallHit :=
  if track.isOutOfBounds k.pos then
    match Game.tryWallSlide track prevPos k.pos with
    | some slidePos =>
        ({ k with pos := slidePos,
                  speed := k.speed * Game.wallSlideSpeedPenalty,
                  controller := { k.controller with
                    speed := k.controller.speed * Game.wallSlideSpeedPenalty } },
         some WallHit.slide)
    | none =>
        ({ k with pos := prevPos,
                  speed := k.speed * Game.wallStopSpeedPenalty,
                  controller := { k.controller with
                    speed := k.controller.speed * Game.wallStopSpeedPenalty } },
         some WallHit.stop)
  else (k, none)

/-- Per-frame player update of Game.update: look up the surface speed
multiplier, remember the previous position, step the kart, then resolve
collisions. -/
def Game.updateFrame (track : Track) (sinF cosF : ℚ → ℚ) (delta : ℚ)
    (inputs : Inputs) (k : Kart) : Kart × Option WallHit :=
  let inputs2 := { inputs with speedMultiplier := track.getSpeedMultiplier k.pos }
  let prevPos := k.pos
  let k1 := k.step sinF cosF delta inputs2
  Game.handleCollisions track prevPos k1

/-- Simulation-relevant state of a Checkpoint (src/entities/Checkpoint.js).
The rotation enters collision testing only through cos(-rotation) and
sin(-rotation), computed by checkCollision each call; we store these two
values directly (fields cosNegRot / sinNegRot) so the development stays
executable over the rationals.  kartsInside is the per-checkpoint set of
kart ids currently inside the volume. -/
structure Checkpoint where
  cpId : ℕ
  position : Vec3
  cosNegRot : ℚ
  sinNegRot : ℚ
  width : ℚ
  height : ℚ
  isFinishLine : Bool
  kartsInside : Finset ℕ
deriving DecidableEq

/-- Inside test of Checkpoint.checkCollision: transform the kart position
into checkpoint local space, rotate by -rotation, and compare against the
plane bounds (thin depth tolerance 2). -/
def Checkpoint.isInsideVolume (cp : Checkpoint) (kartPos : Vec3) : Bool :=
  let lx := kartPos.x - cp.position.x
  let lz := kartPos.z - cp.position.z
  let rotatedX := lx * cp.cosNegRot - lz * cp.sinNegRot
  let rotatedZ := lx * cp.sinNegRot + lz * cp.cosNegRot
  decide (|rotatedX| < cp.width / 2 ∧ kartPos.y < cp.height ∧ kartPos.y > 0 ∧
    |rotatedZ| < 2)

/-- Checkpoint.checkCollision: edge-triggered entry detection.  Returns
true only on the transition from outside to inside; the kart id is added
to kartsInside on entry and removed again when the kart is seen outside. -/
def Checkpoint.checkCollision (cp : Checkpoint) (kartId : ℕ) (kartPos : Vec3) :
    Bool × Checkpoint :=
  if cp.isInsideVolume kartPos = true ∧ kartId ∉ cp.kartsInside then
    (true, { cp with kartsInside := insert kartId cp.kartsInside })
  else if cp.isInsideVolume kartPos = false ∧ kartId ∈ cp.kartsInside then
    (false, { cp with kartsInside := cp.kartsInside.erase kartId })
  else (false, cp)

/-- Per-kart progress entry of CheckpointSystem.kartStates
(src/track/CheckpointSystem.js, initKart).  Timestamps are rationals fed
in by the caller in place of performance.now(). -/
structure KartProgress where
  currentLap : ℕ
  nextCheckpointIndex : ℕ
  checkpointsPassed : List ℕ
  lapStartTime : ℚ
  lastLapTime : Option ℚ
  bestLapTime : Option ℚ
deriving DecidableEq

/-- Fresh progress entry (initKart). -/
def KartProgress.init (now : ℚ) : KartProgress :=
  ⟨0, 0, [], now, none, none⟩

/-- CheckpointSystem restricted to the checkpoints list and the progress
entry of one tracked kart (the source keys a map by kart id; entries for
distinct karts never interact, so we model the entry under scrutiny). -/
structure CheckpointSystem where
  checkpoints : List Checkpoint
  progress : KartProgress
deriving DecidableEq

/-- Lap completion payload returned by CheckpointSystem.completeLap. -/
structure LapResult where
  lapNumber : ℕ
  lapTime : ℚ
  bestLapTime : ℚ
deriving DecidableEq

/-- CheckpointSystem.completeLap: record the lap time, update the best
time, advance the lap counter and reset the progress index to 0. -/
def CheckpointSystem.completeLap (sys : CheckpointSystem) (now : ℚ) :
    CheckpointSystem × Option LapResult :=
  let st := sys.progress
  let lapTime := (now - st.lapStartTime) / 1000
  let best :=
    match st.bestLapTime with
    | none => lapTime
    | some b => if lapTime < b then lapTime else b
  let st2 : KartProgress :=
    { currentLap := st.currentLap + 1,
      nextCheckpointIndex := 0,
      checkpointsPassed := [],
      lapStartTime := now,
      lastLapTime := some lapTime,
      bestLapTime := some best }
  ({ sys with progress := st2 }, some ⟨st.currentLap + 1, lapTime, best⟩)

/-- CheckpointSystem.update: test only the checkpoint at the current
nextCheckpointIndex; on an entry edge, mark it passed and advance, and
complete the lap when the index reaches the end of the list.  Highlight
changes and event emission are presentation side effects and omitted. -/
def CheckpointSystem.update (sys : CheckpointSystem) (kartId : ℕ)
    (kartPosition : Vec3) (now : ℚ) : CheckpointSystem × Option LapResult :=
  if sys.checkpoints.isEmpty then (sys, none)
  else
    let st := sys.progress
    match sys.checkpoints.get? st.nextCheckpointIndex with
    | none => (sys, none)
    | some cp =>
        let res := cp.checkCollision kartId kartPosition
        let checkpoints2 := sys.checkpoints.set st.nextCheckpointIndex res.2
        if res.1 then
          let st2 := { st with
            checkpointsPassed := st.checkpointsPassed ++ [cp.cpId],
            nextCheckpointIndex := st.nextCheckpointIndex + 1 }
          let sys2 : CheckpointSystem := ⟨checkpoints2, st2⟩
          if sys.checkpoints.length ≤ st2.nextCheckpointIndex then
            sys2.completeLap now
          else (sys2, none)
        else (⟨checkpoints2, st⟩, none)

/-- Iterate CheckpointSystem.update over a sequence of kart positions. -/
def CheckpointSystem.run (sys : CheckpointSystem) (kartId : ℕ) (now : ℚ) :
    List Vec3 → CheckpointSystem
  | [] => sys
  | p :: rest => ((sys.update kartId p now).1).run kartId now rest

/-- Iterate Checkpoint.checkCollision over a sequence of positions,
collecting the returned booleans. -/
def Checkpoint.runCheckCollision (cp : Checkpoint) (kartId : ℕ) :
    List Vec3 → List Bool × Checkpoint
  | [] => ([], cp)
  | p :: rest =>
      let r := cp.checkCollision kartId p
      let rest2 := r.2.runCheckCollision kartId rest
      (r.1 :: rest2.1, rest2.2)

/-- Planar direction vector, as in THREE.Vector2. -/
structure Vec2 where
  x : ℚ
  y : ℚ
deriving DecidableEq, Repr

/-- Grid state of src/ai/DirectionField.js: dimensions, tile size and the
row-major field of direction vectors. -/
structure DirectionField where
  gridWidth : ℕ
  gridHeight : ℕ
  tileSize : ℚ
  field : List (List Vec2)
deriving DecidableEq, Repr

/-- Constructor outcome for fewer than 2 waypoints: generatePath logs a
warning and returns null, generateField aborts, and the field array is
left empty. -/
def DirectionField.degenerate (gridWidth gridHeight : ℕ) (tileSize : ℚ) :
    DirectionField :=
  ⟨gridWidth, gridHeight, tileSize, []⟩

/-- DirectionField.getDirectionAt.  Out-of-range queries return the zero
vector; for in-range queries the field rows are indexed directly, and a
missing row or cell (this.field[row][col] on an unpopulated field, a
TypeError in the source) is modelled by none. -/
def DirectionField.getDirectionAt (df : DirectionField) (position : Vec3) :
    Option Vec2 :=
  let col : ℤ := Int.floor ((position.x + (df.gridWidth * df.tileSize) / 2) / df.tileSize)
  let row : ℤ := Int.floor ((position.z + (df.gridHeight * df.tileSize) / 2) / df.tileSize)
  if row < 0 ∨ (df.gridHeight : ℤ) ≤ row ∨ col < 0 ∨ (df.gridWidth : ℤ) ≤ col then
    some ⟨0, 0⟩
  else
    (df.field.get? row.toNat).bind fun rowVecs => rowVecs.get? col.toNat

/-- DirectionField.getTargetAhead: step from the query position along the
looked-up direction (faulting when the lookup faults). -/
def DirectionField.getTargetAhead (df : DirectionField) (position : Vec3)
    (distance : ℚ) : Option Vec3 :=
  (df.getDirectionAt position).map fun d =>
    ⟨position.x + d.x * distance, position.y, position.z + d.y * distance⟩

/-- Iterate ArcadeController.update over a list of frame deltas with a
fixed input record, threading position and heading. -/
def ArcadeController.runUpdates (c : ArcadeController) (sinF cosF : ℚ → ℚ)
    (inputs : Inputs) (position : Vec3) (heading : ℚ) :
    List ℚ → ArcadeController
  | [] => c
  | d :: rest =>
      let out := c.update sinF cosF d position heading inputs
      out.1.runUpdates sinF cosF inputs out.2.position out.2.heading rest

/-- Road tile (collision true, no off-road slowdown). -/
def roadTile : Tile := ⟨true, none⟩

/-- Wall tile (collision false). -/
def wallTile : Tile := ⟨false, none⟩

/-- Concrete 2-by-2 all-road track with tileSize 10. -/
def roadTrack : Track := ⟨10, [[roadTile, roadTile], [roadTile, roadTile]]⟩

/-- Concrete 2-by-2 track whose south-east cell is a wall. -/
def slideTrack : Track := ⟨10, [[roadTile, roadTile], [roadTile, wallTile]]⟩

/-- Inputs with no intent at all. -/
def idleInputs : Inputs := ⟨0, 0, 0, false, 1⟩

/-- Full-throttle inputs, no steering, no drift. -/
def fullThrottle : Inputs := ⟨1, 0, 0, false, 1⟩

/-- Full right steer, no throttle, no drift. -/
def steerRight : Inputs := ⟨0, 0, 1, false, 1⟩

/-- Controller mid-drift holding a full drift charge. -/
def chargedController : ArcadeController :=
  { ArcadeController.init with isDrifting := true, driftCharge := 3/2 }

/-- Kart standing in the wall cell of slideTrack. -/
def slideKart : Kart := { Kart.init with pos := ⟨5, 1/2, 5⟩ }

/-- Unrotated checkpoint of default size (width 20, height 10) centered at
(x, 0, 0), with no kart inside. -/
def mkCheckpoint (i : ℕ) (x : ℚ) : Checkpoint :=
  ⟨i, ⟨x, 0, 0⟩, 1, 0, 20, 10, false, ∅⟩

/-- Three-checkpoint system with checkpoints at x = 0, 100, 200. -/
def threeCheckpointSystem : CheckpointSystem :=
  ⟨[mkCheckpoint 0 0, mkCheckpoint 1 100, mkCheckpoint 2 200], KartProgress.init 0⟩

/-- Any successful wall-slide candidate reuses the previous y. -/
theorem tryWallSlide_y {track : Track} {prevPos newPos v : Vec3}
    (h : Game.tryWallSlide track prevPos newPos = some v) : v.y = prevPos.y := by
  simp only [Game.tryWallSlide] at h
  split_ifs at h
  all_goals simp only [Option.some.injEq] at h
  all_goals subst h
  all_goals rfl

/-- C10: the simulation never changes a kart's vertical coordinate:
ArcadeController.update returns position.y unchanged, and the full
per-frame update (Kart.step followed by collision resolution) preserves
the kart's y, since slide candidates and the stop fallback reuse the
previous position's y. -/
theorem vertical_coordinate_preserved :
    (∀ (c : ArcadeController) (sinF cosF : ℚ → ℚ) (delta : ℚ) (position : Vec3)
        (heading : ℚ) (inputs : Inputs),
      ((c.update sinF cosF delta position heading inputs).2.position).y = position.y) ∧
    (∀ (track : Track) (sinF cosF : ℚ → ℚ) (delta : ℚ) (inputs : Inputs) (k : Kart),
      ((Game.updateFrame track sinF cosF delta inputs k).1).pos.y = k.pos.y) := by
  constructor
  · intro c sinF cosF delta position heading inputs
    rfl
  · intro track sinF cosF delta inputs k
    have hstep : (k.step sinF cosF delta
        { inputs with speedMultiplier := track.getSpeedMultiplier k.pos }).pos.y
        = k.pos.y := rfl
    simp only [Game.updateFrame]
    set k1 := k.step sinF cosF delta
      { inputs with speedMultiplier := track.getSpeedMultiplier k.pos } with hk1
    simp only [Game.handleCollisions]
    split_ifs with hoob
    · cases hts : Game.tryWallSlide track k.pos k1.pos with
      | some v =>
          simp only [hts]
          exact tryWallSlide_y hts
      | none => simp only [hts]
    · exact hstep

/-- C1 (code bug evidence): after one full frame on an all-road track with
zero inputs and zero delta, the kart entity reports speed 5000 while its
controller's internal speed is 0 — Kart.step adds 5000 to the controller's
reported speed, so the two fields are never in sync. -/
theorem kart_speed_desync_bug :
    ((Game.updateFrame roadTrack (fun _ => 0) (fun _ => 0) 0 idleInputs Kart.init).1).speed
      = 5000 ∧
    ((Game.updateFrame roadTrack (fun _ => 0) (fun _ => 0) 0 idleInputs Kart.init).1).controller.speed
      = 0 ∧
    ((Game.updateFrame roadTrack (fun _ => 0) (fun _ => 0) 0 idleInputs Kart.init).1).speed
      ≠ ((Game.updateFrame roadTrack (fun _ => 0) (fun _ => 0) 0 idleInputs Kart.init).1).controller.speed := by
  norm_num [Game.updateFrame, Game.handleCollisions, Game.tryWallSlide, Kart.step,
    Kart.init, ArcadeController.update, ArcadeController.speedControl,
    ArcadeController.giveBoost, ArcadeController.init, Track.getSpeedMultiplier,
    Track.getTileAtPosition, Track.worldToGrid, Track.isOutOfBounds, Track.height,
    Track.width, roadTrack, roadTile, emptyTile, idleInputs, lerp, clamp, qsign]

/-- C2: collision resolution is axis-separated sliding with X tried before
Z: a drivable candidate passes through unchanged; otherwise the X slide,
then the Z slide, is accepted with the slide penalty 0.7; otherwise the
kart returns to the previous position with the stop penalty 0.5. -/
theorem collision_resolution_cases (track : Track) (prevPos : Vec3) (k : Kart) :
    (track.isOutOfBounds k.pos = false →
      Game.handleCollisions track prevPos k = (k, none)) ∧
    (track.isOutOfBounds k.pos = true →
      track.isOutOfBounds ⟨k.pos.x, prevPos.y, prevPos.z⟩ = false →
      Game.handleCollisions track prevPos k =
        ({ k with pos := ⟨k.pos.x, prevPos.y, prevPos.z⟩,
                  speed := k.speed * Game.wallSlideSpeedPenalty,
                  controller := { k.controller with
                    speed := k.controller.speed * Game.wallSlideSpeedPenalty } },
         some WallHit.slide)) ∧
    (track.isOutOfBounds k.pos = true →
      track.isOutOfBounds ⟨k.pos.x, prevPos.y, prevPos.z⟩ = true →
      track.isOutOfBounds ⟨prevPos.x, prevPos.y, k.pos.z⟩ = false →
      Game.handleCollisions track prevPos k =
        ({ k with pos := ⟨prevPos.x, prevPos.y, k.pos.z⟩,
                  speed := k.speed * Game.wallSlideSpeedPenalty,
                  controller := { k.controller with
                    speed := k.controller.speed * Game.wallSlideSpeedPenalty } },
         some WallHit.slide)) ∧
    (track.isOutOfBounds k.pos = true →
      track.isOutOfBounds ⟨k.pos.x, prevPos.y, prevPos.z⟩ = true →
      track.isOutOfBounds ⟨prevPos.x, prevPos.y, k.pos.z⟩ = true →
      Game.handleCollisions track prevPos k =
        ({ k with pos := prevPos,
                  speed := k.speed * Game.wallStopSpeedPenalty,
                  controller := { k.controller with
                    speed := k.controller.speed * Game.wallStopSpeedPenalty } },
         some WallHit.stop)) ∧
    Game.wallSlideSpeedPenalty = 0.7 ∧ Game.wallStopSpeedPenalty = 0.5 := by
  refine ⟨?_, ?_, ?_, ?_, rfl, rfl⟩
  · intro h0
    simp [Game.handleCollisions, h0]
  · intro h0 h1
    simp [Game.handleCollisions, Game.tryWallSlide, h0, h1]
  · intro h0 h1 h2
    simp [Game.handleCollisions, Game.tryWallSlide, h0, h1, h2]
  · intro h0 h1 h2
    simp [Game.handleCollisions, Game.tryWallSlide, h0, h1, h2]

/-- Witness for C2: on slideTrack, a kart in the wall cell with a previous
position diagonally across slides along X with the 0.7 penalty. -/
theorem collision_resolution_cases_witness :
    slideTrack.isOutOfBounds slideKart.pos = true ∧
    slideTrack.isOutOfBounds ⟨slideKart.pos.x, (1 : ℚ)/2, -5⟩ = false ∧
    Game.handleCollisions slideTrack ⟨-5, 1/2, -5⟩ slideKart =
      ({ slideKart with
          pos := ⟨slideKart.pos.x, (1 : ℚ)/2, -5⟩,
          speed := slideKart.speed * Game.wallSlideSpeedPenalty,
          controller := { slideKart.controller with
            speed := slideKart.controller.speed * Game.wallSlideSpeedPenalty } },
       some WallHit.slide) := by
  have h0 : slideTrack.isOutOfBounds slideKart.pos = true := by
    norm_num [Track.isOutOfBounds, Track.getTileAtPosition, Track.worldToGrid,
      Track.height, Track.width, slideTrack, slideKart, Kart.init, roadTile, wallTile]
  have h1 : slideTrack.isOutOfBounds ⟨slideKart.pos.x, (1 : ℚ)/2, -5⟩ = false := by
    norm_num [Track.isOutOfBounds, Track.getTileAtPosition, Track.worldToGrid,
      Track.height, Track.width, slideTrack, slideKart, Kart.init, roadTile, wallTile]
  exact ⟨h0, h1,
    (collision_resolution_cases slideTrack ⟨-5, 1/2, -5⟩ slideKart).2.1 h0 h1⟩

/-- Floor of an integer plus one half. -/
theorem floor_int_add_half (n : ℤ) : Int.floor ((n : ℚ) + 1/2) = n := by
  rw [add_comm, Int.floor_add_int, Int.floor_eq_zero_iff.mpr]
  · omega
  · rw [Set.mem_Ico]
    norm_num

/-- C9: worldToGrid and gridToWorld are inverse on the grid: for every
in-bounds cell the round trip returns exactly that cell, and both return
null for out-of-range arguments. -/
theorem grid_world_inverse (t : Track) (row col : ℤ) (hts : 0 < t.tileSize) :
    ((0 ≤ row ∧ row < (t.height : ℤ) ∧ 0 ≤ col ∧ col < (t.width : ℤ)) →
      (t.gridToWorld row col).bind t.worldToGrid = some (row, col)) ∧
    ((row < 0 ∨ (t.height : ℤ) ≤ row ∨ col < 0 ∨ (t.width : ℤ) ≤ col) →
      t.gridToWorld row col = none) ∧
    (∀ p : Vec3,
      (Int.floor ((p.z + (t.height * t.tileSize) / 2) / t.tileSize) < 0 ∨
        (t.height : ℤ) ≤ Int.floor ((p.z + (t.height * t.tileSize) / 2) / t.tileSize) ∨
        Int.floor ((p.x + (t.width * t.tileSize) / 2) / t.tileSize) < 0 ∨
        (t.width : ℤ) ≤ Int.floor ((p.x + (t.width * t.tileSize) / 2) / t.tileSize)) →
      t.worldToGrid p = none) := by
  have hts0 : t.tileSize ≠ 0 := ne_of_gt hts
  refine ⟨?_, ?_, ?_⟩
  · rintro ⟨h1, h2, h3, h4⟩
    have hx : ((((col : ℚ) - (t.width : ℚ) / 2) * t.tileSize + t.tileSize / 2) +
        ((t.width : ℚ) * t.tileSize) / 2) / t.tileSize = (col : ℚ) + 1/2 := by
      field_simp
      ring
    have hz : ((((row : ℚ) - (t.height : ℚ) / 2) * t.tileSize + t.tileSize / 2) +
        ((t.height : ℚ) * t.tileSize) / 2) / t.tileSize = (row : ℚ) + 1/2 := by
      field_simp
      ring
    simp only [Track.gridToWorld, Track.worldToGrid]
    rw [if_neg (by omega)]
    simp only [Option.some_bind]
    rw [hx, hz, floor_int_add_half, floor_int_add_half, if_neg (by omega)]
  · intro h
    simp only [Track.gridToWorld]
    rw [if_pos h]
  · intro p h
    simp only [Track.worldToGrid]
    rw [if_pos h]

/-- Witness for C9: on the 2-by-2 roadTrack, cell (1, 0) round-trips. -/
theorem grid_world_inverse_witness :
    (0 : ℚ) < roadTrack.tileSize ∧
    (roadTrack.gridToWorld 1 0).bind roadTrack.worldToGrid = some (1, 0) :=
  ⟨by norm_num [roadTrack], (grid_world_inverse roadTrack 1 0 (by norm_num [roadTrack])).1
    (by norm_num [Track.height, Track.width, roadTrack])⟩

/-- speedControl only writes boostTimer and speed (isDrifting kept). -/
@[simp] theorem speedControl_isDrifting (c : ArcadeController) (d th br m : ℚ) :
    (c.speedControl d th br m).isDrifting = c.isDrifting := rfl

/-- speedControl keeps driftCharge. -/
@[simp] theorem speedControl_driftCharge (c : ArcadeController) (d th br m : ℚ) :
    (c.speedControl d th br m).driftCharge = c.driftCharge := rfl

/-- speedControl keeps driftDirection. -/
@[simp] theorem speedControl_driftDirection (c : ArcadeController) (d th br m : ℚ) :
    (c.speedControl d th br m).driftDirection = c.driftDirection := rfl

/-- speedControl keeps driftAngle. -/
@[simp] theorem speedControl_driftAngle (c : ArcadeController) (d th br m : ℚ) :
    (c.speedControl d th br m).driftAngle = c.driftAngle := rfl

/-- speedControl keeps maxSpeed. -/
@[simp] theorem speedControl_maxSpeed (c : ArcadeController) (d th br m : ℚ) :
    (c.speedControl d th br m).maxSpeed = c.maxSpeed := rfl

/-- speedControl keeps reverseSpeed. -/
@[simp] theorem speedControl_reverseSpeed (c : ArcadeController) (d th br m : ℚ) :
    (c.speedControl d th br m).reverseSpeed = c.reverseSpeed := rfl

/-- speedControl keeps minTurnSpeed. -/
@[simp] theorem speedControl_minTurnSpeed (c : ArcadeController) (d th br m : ℚ) :
    (c.speedControl d th br m).minTurnSpeed = c.minTurnSpeed := rfl

/-- speedControl keeps turnSpeed. -/
@[simp] theorem speedControl_turnSpeed (c : ArcadeController) (d th br m : ℚ) :
    (c.speedControl d th br m).turnSpeed = c.turnSpeed := rfl

/-- speedControl keeps driftTurnPenalty. -/
@[simp] theorem speedControl_driftTurnPenalty (c : ArcadeController) (d th br m : ℚ) :
    (c.speedControl d th br m).driftTurnPenalty = c.driftTurnPenalty := rfl

/-- speedControl keeps driftOutwardPush. -/
@[simp] theorem speedControl_driftOutwardPush (c : ArcadeController) (d th br m : ℚ) :
    (c.speedControl d th br m).driftOutwardPush = c.driftOutwardPush := rfl

/-- speedControl keeps smoothedOutwardPush. -/
@[simp] theorem speedControl_smoothedOutwardPush (c : ArcadeController) (d th br m : ℚ) :
    (c.speedControl d th br m).smoothedOutwardPush = c.smoothedOutwardPush := rfl

/-- speedControl keeps boostDuration. -/
@[simp] theorem speedControl_boostDuration (c : ArcadeController) (d th br m : ℚ) :
    (c.speedControl d th br m).boostDuration = c.boostDuration := rfl

/-- The boostTimer written by speedControl. -/
theorem speedControl_boostTimer (c : ArcadeController) (d th br m : ℚ) :
    (c.speedControl d th br m).boostTimer =
      if c.boostTimer > 0 then c.boostTimer - d else c.boostTimer := rfl

/-- One update step under throttle with no drift intent and no boost:
the resulting speed respects the clamp ceiling targetSpeed + 5, the boost
timer and the drift flag are unchanged, and the tuning parameters are
preserved. -/
theorem update_speed_bound (c : ArcadeController) (sinF cosF : ℚ → ℚ) (delta : ℚ)
    (position : Vec3) (heading : ℚ) (inputs : Inputs)
    (hb : c.boostTimer ≤ 0) (hd : c.isDrifting = false) (hdr : inputs.drift = false)
    (hrev : 0 ≤ c.reverseSpeed) (hmax : 0 ≤ c.maxSpeed)
    (hmul : 0 ≤ inputs.speedMultiplier) :
    ((c.update sinF cosF delta position heading inputs).1.speed
        ≤ c.maxSpeed * inputs.speedMultiplier + 5) ∧
    ((c.update sinF cosF delta position heading inputs).1.boostTimer = c.boostTimer) ∧
    ((c.update sinF cosF delta position heading inputs).1.isDrifting = false) ∧
    ((c.update sinF cosF delta position heading inputs).1.maxSpeed = c.maxSpeed) ∧
    ((c.update sinF cosF delta position heading inputs).1.reverseSpeed = c.reverseSpeed) := by
  have hnb : ¬ (c.boostTimer > 0) := not_lt.mpr hb
  refine ⟨?_, ?_, ?_, ?_, ?_⟩ <;>
    simp [ArcadeController.update, ArcadeController.speedControl, hdr, hd, hnb, clamp]
  linarith [mul_nonneg hmax hmul]

/-- Unfolding equation of runUpdates on the empty delta list. -/
theorem runUpdates_nil (c : ArcadeController) (sinF cosF : ℚ → ℚ)
    (inputs : Inputs) (position : Vec3) (heading : ℚ) :
    c.runUpdates sinF cosF inputs position heading [] = c := rfl

/-- Unfolding equation of runUpdates on a cons of deltas. -/
theorem runUpdates_cons (c : ArcadeController) (sinF cosF : ℚ → ℚ)
    (inputs : Inputs) (position : Vec3) (heading : ℚ) (d : ℚ) (rest : List ℚ) :
    c.runUpdates sinF cosF inputs position heading (d :: rest) =
      ((c.update sinF cosF d position heading inputs).1).runUpdates sinF cosF
        inputs (c.update sinF cosF d position heading inputs).2.position
        (c.update sinF cosF d position heading inputs).2.heading rest := rfl

/-- Trace form of the clamp-ceiling bound: for any nonempty delta sequence
with no drift intent and no boost, every run ends below the buffered
ceiling. -/
theorem runUpdates_speed_bound (sinF cosF : ℚ → ℚ) (inputs : Inputs)
    (hdr : inputs.drift = false) (hmul : 0 ≤ inputs.speedMultiplier)
    (deltas : List ℚ) :
    ∀ (c : ArcadeController) (position : Vec3) (heading : ℚ),
      c.boostTimer ≤ 0 → c.isDrifting = false → 0 ≤ c.reverseSpeed →
      0 ≤ c.maxSpeed → deltas ≠ [] →
      (c.runUpdates sinF cosF inputs position heading deltas).speed
        ≤ c.maxSpeed * inputs.speedMultiplier + 5 := by
  induction deltas with
  | nil =>
      intro c position heading _ _ _ _ hne
      exact absurd rfl hne
  | cons d rest ih =>
      intro c position heading hb hd hrev hmax _
      have hstep := update_speed_bound c sinF cosF d position heading inputs
        hb hd hdr hrev hmax hmul
      cases rest with
      | nil =>
          rw [runUpdates_cons, runUpdates_nil]
          exact hstep.1
      | cons d2 rest2 =>
          rw [runUpdates_cons]
          have hih := ih (c.update sinF cosF d position heading inputs).1
            (c.update sinF cosF d position heading inputs).2.position
            (c.update sinF cosF d position heading inputs).2.heading
            (by rw [hstep.2.1]; exact hb) hstep.2.2.1
            (by rw [hstep.2.2.2.2]; exact hrev)
            (by rw [hstep.2.2.2.1]; exact hmax) (by simp)
          rw [hstep.2.2.2.1] at hih
          exact hih

/-- C5 (amended): under sustained full throttle with no drift and no boost,
for every sequence of deltas the motion model's speed never exceeds
maxSpeed * speedMultiplier + 5 — the clamp's smooth-transition buffer —
after every update. -/
theorem speed_bounded_by_clamp_buffer (c : ArcadeController) (sinF cosF : ℚ → ℚ)
    (inputs : Inputs) (position : Vec3) (heading : ℚ) (deltas : List ℚ)
    (hdelta : ∀ d ∈ deltas, 0 ≤ d) (hth : inputs.throttle = 1)
    (hb : c.boostTimer ≤ 0) (hd : c.isDrifting = false) (hdr : inputs.drift = false)
    (hrev : 0 ≤ c.reverseSpeed) (hmax : 0 ≤ c.maxSpeed)
    (hmul : 0 ≤ inputs.speedMultiplier) (hne : deltas ≠ []) :
    (c.runUpdates sinF cosF inputs position heading deltas).speed
      ≤ c.maxSpeed * inputs.speedMultiplier + 5 :=
  runUpdates_speed_bound sinF cosF inputs hdr hmul deltas
    c position heading hb hd hrev hmax hne

/-- Witness for C5 (amended): one full-throttle step from defaults keeps
the speed within the buffered ceiling. -/
theorem speed_bounded_by_clamp_buffer_witness :
    (ArcadeController.init.runUpdates (fun _ => 0) (fun _ => 0) fullThrottle
        ⟨0, 0.5, 0⟩ 0 [1]).speed
      ≤ ArcadeController.init.maxSpeed * fullThrottle.speedMultiplier + 5 :=
  speed_bounded_by_clamp_buffer ArcadeController.init (fun _ => 0) (fun _ => 0)
    fullThrottle ⟨0, 0.5, 0⟩ 0 [1]
    (by intro d hd; simp at hd; simp [hd]) rfl
    (by norm_num [ArcadeController.init]) rfl rfl
    (by norm_num [ArcadeController.init]) (by norm_num [ArcadeController.init])
    (by norm_num [fullThrottle]) (by simp)

/-- Counterexample for C5 as stated: two full-throttle unit steps from the
default controller drive the speed to 45 = maxSpeed + 5, strictly above
maxSpeed * speedMultiplier = 40. -/
theorem speed_exceeds_max_counterexample :
    (ArcadeController.init.runUpdates (fun _ => 0) (fun _ => 0) fullThrottle
        ⟨0, 0.5, 0⟩ 0 [1, 1]).speed = 45 ∧
    ¬ ((ArcadeController.init.runUpdates (fun _ => 0) (fun _ => 0) fullThrottle
        ⟨0, 0.5, 0⟩ 0 [1, 1]).speed
          ≤ ArcadeController.init.maxSpeed * fullThrottle.speedMultiplier) := by
  norm_num [ArcadeController.runUpdates, ArcadeController.update,
    ArcadeController.speedControl, ArcadeController.init, fullThrottle, lerp,
    clamp, qsign]

/-- C6: releasing a drift (drift intent false while DRIFTING) resets the
drift flag, drift charge and drift direction, and restarts the boost timer
to the full boost duration exactly when the charge at release is at least
1.0; otherwise the boost timer is left as the speed-control section left
it. -/
theorem drift_release_payoff (c : ArcadeController) (sinF cosF : ℚ → ℚ)
    (delta : ℚ) (position : Vec3) (heading : ℚ) (inputs : Inputs)
    (hd : c.isDrifting = true) (hdr : inputs.drift = false) :
    ((c.update sinF cosF delta position heading inputs).1.isDrifting = false) ∧
    ((c.update sinF cosF delta position heading inputs).1.driftCharge = 0) ∧
    ((c.update sinF cosF delta position heading inputs).1.driftDirection = 0) ∧
    ((c.update sinF cosF delta position heading inputs).1.boostTimer =
      if c.driftCharge ≥ 1 then c.boostDuration
      else if c.boostTimer > 0 then c.boostTimer - delta else c.boostTimer) := by
  by_cases hch : c.driftCharge ≥ 1 <;>
    refine ⟨?_, ?_, ?_, ?_⟩ <;>
      simp [ArcadeController.update, ArcadeController.giveBoost,
        speedControl_boostTimer, hd, hdr, hch]

/-- Witness for C6: releasing a fully charged drift restarts the boost
timer to the full boost duration. -/
theorem drift_release_payoff_witness :
    chargedController.isDrifting = true ∧ idleInputs.drift = false ∧
    (((chargedController.update (fun _ => 0) (fun _ => 0) 1 ⟨0, 0.5, 0⟩ 0
        idleInputs).1.isDrifting = false) ∧
     ((chargedController.update (fun _ => 0) (fun _ => 0) 1 ⟨0, 0.5, 0⟩ 0
        idleInputs).1.driftCharge = 0) ∧
     ((chargedController.update (fun _ => 0) (fun _ => 0) 1 ⟨0, 0.5, 0⟩ 0
        idleInputs).1.driftDirection = 0) ∧
     ((chargedController.update (fun _ => 0) (fun _ => 0) 1 ⟨0, 0.5, 0⟩ 0
        idleInputs).1.boostTimer =
       if chargedController.driftCharge ≥ 1 then chargedController.boostDuration
       else if chargedController.boostTimer > 0 then chargedController.boostTimer - 1
       else chargedController.boostTimer)) :=
  ⟨rfl, rfl,
   drift_release_payoff chargedController (fun _ => 0) (fun _ => 0) 1 ⟨0, 0.5, 0⟩ 0
     idleInputs rfl rfl⟩

/-- C7 (amended): on a non-drifting kart the heading changes by exactly
-steer * turnRate * delta, with turnRate interpolated between minTurnSpeed
and turnSpeed by |speed| / maxSpeed, but only when the updated speed
exceeds the moving threshold 2 and |steer| exceeds the deadband 0.05;
otherwise — in particular for a stopped kart — the heading is unchanged. -/
theorem heading_turn_characterization (c : ArcadeController) (sinF cosF : ℚ → ℚ)
    (delta : ℚ) (position : Vec3) (heading : ℚ) (inputs : Inputs)
    (hd : c.isDrifting = false) (hdr : inputs.drift = false)
    (hsteer : |inputs.steer| ≤ 1) :
    (c.update sinF cosF delta position heading inputs).2.heading =
      if |(c.update sinF cosF delta position heading inputs).2.speed| > 2 ∧
          |inputs.steer| > 0.05 then
        heading - inputs.steer *
          lerp c.minTurnSpeed c.turnSpeed
            (|(c.update sinF cosF delta position heading inputs).2.speed| / c.maxSpeed) *
          delta
      else heading := by
  simp [ArcadeController.update, hd, hdr]

/-- Witness for C7 (amended): a moving kart with full right steer turns by
the interpolated turn rate. -/
theorem heading_turn_characterization_witness :
    ArcadeController.init.isDrifting = false ∧ steerRight.drift = false ∧
    |steerRight.steer| ≤ 1 ∧
    (ArcadeController.init.update (fun _ => 0) (fun _ => 0) 1 ⟨0, 0.5, 0⟩ 0
        steerRight).2.heading =
      if |(ArcadeController.init.update (fun _ => 0) (fun _ => 0) 1 ⟨0, 0.5, 0⟩ 0
            steerRight).2.speed| > 2 ∧ |steerRight.steer| > 0.05 then
        0 - steerRight.steer *
          lerp ArcadeController.init.minTurnSpeed ArcadeController.init.turnSpeed
            (|(ArcadeController.init.update (fun _ => 0) (fun _ => 0) 1 ⟨0, 0.5, 0⟩ 0
                steerRight).2.speed| / ArcadeController.init.maxSpeed) * 1
      else 0 :=
  ⟨rfl, rfl, by norm_num [steerRight],
   heading_turn_characterization ArcadeController.init (fun _ => 0) (fun _ => 0) 1
     ⟨0, 0.5, 0⟩ 0 steerRight rfl rfl (by norm_num [steerRight])⟩

/-- Counterexample for C7 as stated: a stopped kart with full steer does
not turn at all (the code requires |speed| > 2 before turning), while the
claimed formula -steer * turnRate * delta demands a turn by the minimum
turn rate -0.4. -/
theorem stopped_kart_turn_counterexample :
    (ArcadeController.init.update (fun _ => 0) (fun _ => 0) 1 ⟨0, 0.5, 0⟩ 0
        steerRight).2.heading = 0 ∧
    (0 : ℚ) - steerRight.steer *
        lerp ArcadeController.init.minTurnSpeed ArcadeController.init.turnSpeed
          (|(ArcadeController.init.update (fun _ => 0) (fun _ => 0) 1 ⟨0, 0.5, 0⟩ 0
              steerRight).2.speed| / ArcadeController.init.maxSpeed) * 1 = -(2/5) ∧
    (0 : ℚ) ≠ -(2/5) := by
  norm_num [ArcadeController.update, ArcadeController.speedControl,
    ArcadeController.init, steerRight, lerp, clamp, qsign]

/-- C8 (amended): on a degenerate DirectionField (fewer than 2 waypoints,
field left empty), getDirectionAt returns the zero vector exactly for
out-of-range query positions; an in-range query indexes the empty field
array and faults (none models the TypeError) instead of returning zero. -/
theorem degenerate_direction_field_query (gw gh : ℕ) (ts : ℚ) (p : Vec3) :
    (DirectionField.degenerate gw gh ts).getDirectionAt p =
      if Int.floor ((p.z + (gh * ts) / 2) / ts) < 0 ∨
          (gh : ℤ) ≤ Int.floor ((p.z + (gh * ts) / 2) / ts) ∨
          Int.floor ((p.x + (gw * ts) / 2) / ts) < 0 ∨
          (gw : ℤ) ≤ Int.floor ((p.x + (gw * ts) / 2) / ts) then some ⟨0, 0⟩
      else none := by
  simp only [DirectionField.getDirectionAt, DirectionField.degenerate]
  split_ifs with h
  · rfl
  · simp

/-- Counterexample for C8 as stated: with the default 60-by-60 grid of
tile size 2 and fewer than 2 waypoints, the in-range query at the origin
does not return the zero vector — it faults on the empty field. -/
theorem degenerate_direction_field_fault :
    (DirectionField.degenerate 60 60 2).getDirectionAt ⟨0, 0.5, 0⟩ = none ∧
    (DirectionField.degenerate 60 60 2).getDirectionAt ⟨0, 0.5, 0⟩ ≠ some ⟨0, 0⟩ := by
  have h : (DirectionField.degenerate 60 60 2).getDirectionAt ⟨0, 0.5, 0⟩ = none := by
    norm_num [DirectionField.getDirectionAt, DirectionField.degenerate]
  exact ⟨h, by simp [h]⟩

/-- checkCollision only writes the inside-set; the volume is unchanged. -/
theorem checkCollision_isInsideVolume (cp : Checkpoint) (kartId : ℕ) (p q : Vec3) :
    ((cp.checkCollision kartId p).2).isInsideVolume q = cp.isInsideVolume q := by
  simp only [Checkpoint.checkCollision]
  split_ifs <;> rfl

/-- checkCollision fires only when the kart is inside the volume. -/
theorem checkCollision_true_inside (cp : Checkpoint) (kartId : ℕ) (p : Vec3)
    (h : (cp.checkCollision kartId p).1 = true) : cp.isInsideVolume p = true := by
  simp only [Checkpoint.checkCollision] at h
  split_ifs at h with h1 h2
  exact h1.1

/-- While the kart stays registered inside and the positions remain in the
volume, checkCollision keeps returning false and changes nothing. -/
theorem runCheckCollision_inside_false (cp : Checkpoint) (kartId : ℕ)
    (ps : List Vec3) (hmem : kartId ∈ cp.kartsInside)
    (hin : ∀ p ∈ ps, cp.isInsideVolume p = true) :
    (cp.runCheckCollision kartId ps).1 = List.replicate ps.length false := by
  induction ps with
  | nil => rfl
  | cons p rest ih =>
      have hinp := hin p (List.mem_cons_self p rest)
      have hcc : cp.checkCollision kartId p = (false, cp) := by
        simp only [Checkpoint.checkCollision, hinp]
        rw [if_neg (fun hcon => hcon.2 hmem), if_neg (by simp)]
      simp only [Checkpoint.runCheckCollision, hcc, List.length_cons,
        List.replicate_succ]
      exact congrArg (false :: ·) (ih (fun q hq => hin q (List.mem_cons_of_mem p hq)))

/-- C4: checkpoint crossing is edge-triggered: a kart entering the volume
and staying inside fires checkCollision exactly once (on the outside-to-
inside transition), and a registered kart is removed from the inside-set
exactly when it is seen outside the volume. -/
theorem checkpoint_edge_triggered (cp : Checkpoint) (kartId : ℕ) (ps : List Vec3)
    (h0 : kartId ∉ cp.kartsInside)
    (hin : ∀ p ∈ ps, cp.isInsideVolume p = true)
    (hne : ps ≠ []) :
    ((cp.runCheckCollision kartId ps).1
      = true :: List.replicate (ps.length - 1) false) ∧
    (∀ (cp2 : Checkpoint) (kid : ℕ) (q : Vec3), kid ∈ cp2.kartsInside →
      ((kid ∈ ((cp2.checkCollision kid q).2).kartsInside) ↔
        cp2.isInsideVolume q = true)) := by
  constructor
  · cases ps with
    | nil => exact absurd rfl hne
    | cons p rest =>
        have hinp := hin p (List.mem_cons_self p rest)
        have hcc : cp.checkCollision kartId p =
            (true, { cp with kartsInside := insert kartId cp.kartsInside }) := by
          simp only [Checkpoint.checkCollision]
          rw [if_pos ⟨hinp, h0⟩]
        simp only [Checkpoint.runCheckCollision, hcc, List.length_cons,
          Nat.add_sub_cancel]
        refine congrArg (true :: ·) ?_
        exact runCheckCollision_inside_false _ kartId rest
          (Finset.mem_insert_self kartId cp.kartsInside)
          (fun q hq => hin q (List.mem_cons_of_mem p hq))
  · intro cp2 kid q hmem
    simp only [Checkpoint.checkCollision]
    split_ifs with h1 h2
    · exact absurd hmem h1.2
    · rw [h2.1]
      simp [Finset.mem_erase]
    · simp only [hmem, true_iff]
      cases hiv : cp2.isInsideVolume q with
      | false => exact absurd ⟨hiv, hmem⟩ h2
      | true => rfl

/-- Witness for C4: a kart entering checkpoint 0 and lingering one more
frame fires exactly once. -/
theorem checkpoint_edge_triggered_witness :
    ((3 : ℕ) ∉ (mkCheckpoint 0 0).kartsInside) ∧
    (((mkCheckpoint 0 0).runCheckCollision 3 [⟨0, 1, 0⟩, ⟨0, 1, 0⟩]).1
        = true :: List.replicate 1 false) := by
  have hin : ∀ p ∈ [(⟨0, 1, 0⟩ : Vec3), ⟨0, 1, 0⟩],
      (mkCheckpoint 0 0).isInsideVolume p = true := by
    intro p hp
    simp only [List.mem_cons, List.not_mem_nil, or_false] at hp
    rcases hp with h | h <;>
      · subst h
        norm_num [Checkpoint.isInsideVolume, mkCheckpoint]
  refine ⟨by simp [mkCheckpoint], ?_⟩
  exact (checkpoint_edge_triggered (mkCheckpoint 0 0) 3 [⟨0, 1, 0⟩, ⟨0, 1, 0⟩]
    (by simp [mkCheckpoint]) hin (by simp)).1

/-- The checkpoint list after one system update is either unchanged or the
tested entry replaced by its checkCollision result. -/
theorem update_checkpoints_eq (sys : CheckpointSystem) (kartId : ℕ) (p : Vec3)
    (now : ℚ) :
    ((sys.update kartId p now).1).checkpoints = sys.checkpoints ∨
    ∃ cp, sys.checkpoints.get? sys.progress.nextCheckpointIndex = some cp ∧
      ((sys.update kartId p now).1).checkpoints =
        sys.checkpoints.set sys.progress.nextCheckpointIndex
          ((cp.checkCollision kartId p).2) := by
  simp only [CheckpointSystem.update]
  split
  · left; rfl
  · split
    · left; rfl
    · next cp0 heq =>
        right
        refine ⟨cp0, heq, ?_⟩
        split
        · split
          · simp [CheckpointSystem.completeLap]
          · rfl
        · rfl

/-- Volumes seen at any index after a system update agree with the volumes
there before the update. -/
theorem update_preserves_inside (sys : CheckpointSystem) (kartId : ℕ) (p : Vec3)
    (now : ℚ) (j : ℕ) (cp2 : Checkpoint)
    (h : ((sys.update kartId p now).1).checkpoints.get? j = some cp2) :
    ∃ cp, sys.checkpoints.get? j = some cp ∧
      ∀ q, cp2.isInsideVolume q = cp.isInsideVolume q := by
  rcases update_checkpoints_eq sys kartId p now with heq | ⟨cp0, hcp0, heq⟩
  · rw [heq] at h
    exact ⟨cp2, h, fun q => rfl⟩
  · rw [heq] at h
    by_cases hj : sys.progress.nextCheckpointIndex = j
    · subst hj
      rw [List.get?_set_eq, hcp0] at h
      simp only [Option.map_some, Option.some.injEq] at h
      subst h
      exact ⟨cp0, hcp0, fun q => checkCollision_isInsideVolume cp0 kartId p q⟩
    · rw [List.get?_set_ne _ _ hj] at h
      exact ⟨cp2, h, fun q => rfl⟩

/-- One system update cannot push the progress index past a bound k1 when
the kart is outside the volume of the checkpoint indexed k1. -/
theorem update_nextCheckpointIndex_le (sys : CheckpointSystem) (kartId : ℕ)
    (p : Vec3) (now : ℚ) (k1 : ℕ)
    (hidx : sys.progress.nextCheckpointIndex ≤ k1)
    (hins : ∀ cp, sys.checkpoints.get? k1 = some cp → cp.isInsideVolume p = false) :
    ((sys.update kartId p now).1).progress.nextCheckpointIndex ≤ k1 := by
  simp only [CheckpointSystem.update]
  split
  · exact hidx
  · split
    · exact hidx
    · next cp0 heq =>
        split
        · next hres =>
            by_cases hk : sys.progress.nextCheckpointIndex = k1
            · have hiv := checkCollision_true_inside cp0 kartId p hres
              have h2 := hins cp0 (hk ▸ heq)
              rw [hiv] at h2
              exact absurd h2 (by simp)
            · have hlt : sys.progress.nextCheckpointIndex < k1 :=
                lt_of_le_of_ne hidx hk
              split
              · simp [CheckpointSystem.completeLap]
              · simpa using hlt
        · exact hidx

/-- Trace form: the progress index stays at most k1 along any position
sequence that never enters the volume of checkpoint k1. -/
theorem run_nextCheckpointIndex_le (kartId : ℕ) (now : ℚ) (k1 : ℕ) :
    ∀ (ps : List Vec3) (sys : CheckpointSystem),
      sys.progress.nextCheckpointIndex ≤ k1 →
      (∀ cp, sys.checkpoints.get? k1 = some cp →
        ∀ p ∈ ps, cp.isInsideVolume p = false) →
      (sys.run kartId now ps).progress.nextCheckpointIndex ≤ k1
  | [], _, hidx, _ => hidx
  | p :: rest, sys, hidx, hins => by
      simp only [CheckpointSystem.run]
      apply run_nextCheckpointIndex_le kartId now k1 rest
      · exact update_nextCheckpointIndex_le sys kartId p now k1 hidx
          (fun cp h => hins cp h p (List.mem_cons_self p rest))
      · intro cp2 h2 q hq
        obtain ⟨cp, hcp, hiso⟩ := update_preserves_inside sys kartId p now k1 cp2 h2
        rw [hiso q]
        exact hins cp hcp q (List.mem_cons_of_mem p hq)

/-- C3: checkpoint progress is strictly sequential: along any position
sequence that reaches checkpoint k+2's volume without ever entering
checkpoint k+1's volume, the progress index never advances past k+1 at any
prefix of the sequence. -/
theorem checkpoint_no_skip (sys : CheckpointSystem) (kartId : ℕ) (now : ℚ)
    (k : ℕ) (ps : List Vec3)
    (hidx : sys.progress.nextCheckpointIndex ≤ k + 1)
    (hnotK1 : ∀ cp, sys.checkpoints.get? (k + 1) = some cp →
      ∀ p ∈ ps, cp.isInsideVolume p = false)
    (hK2 : ∃ cp p, sys.checkpoints.get? (k + 2) = some cp ∧ p ∈ ps ∧
      cp.isInsideVolume p = true) :
    ∀ pre suf, ps = pre ++ suf →
      (sys.run kartId now pre).progress.nextCheckpointIndex ≤ k + 1 := by
  intro pre suf hps
  apply run_nextCheckpointIndex_le kartId now (k + 1) pre sys hidx
  intro cp h p hp
  refine hnotK1 cp h p ?_
  rw [hps]
  exact List.mem_append_left suf hp

/-- Witness for C3: in the three-checkpoint system, a kart teleported into
checkpoint 2's volume while never entering checkpoint 1's volume leaves
the progress index at most 1. -/
theorem checkpoint_no_skip_witness :
    threeCheckpointSystem.progress.nextCheckpointIndex ≤ 0 + 1 ∧
    (threeCheckpointSystem.run 7 0 [⟨200, 1, 0⟩]).progress.nextCheckpointIndex
      ≤ 0 + 1 := by
  have hnot : ∀ cp, threeCheckpointSystem.checkpoints.get? (0 + 1) = some cp →
      ∀ p ∈ [(⟨200, 1, 0⟩ : Vec3)], cp.isInsideVolume p = false := by
    intro cp hcp p hp
    simp only [threeCheckpointSystem, List.get?] at hcp
    simp only [List.mem_cons, List.not_mem_nil, or_false] at hp
    subst hp
    simp only [Option.some.injEq] at hcp
    subst hcp
    norm_num [Checkpoint.isInsideVolume, mkCheckpoint]
  have hk2 : ∃ cp p, threeCheckpointSystem.checkpoints.get? (0 + 2) = some cp ∧
      p ∈ [(⟨200, 1, 0⟩ : Vec3)] ∧ cp.isInsideVolume p = true := by
    refine ⟨mkCheckpoint 2 200, ⟨200, 1, 0⟩, rfl, by simp, ?_⟩
    norm_num [Checkpoint.isInsideVolume, mkCheckpoint]
  exact ⟨by simp [threeCheckpointSystem, KartProgress.init],
    checkpoint_no_skip threeCheckpointSystem 7 0 0 [⟨200, 1, 0⟩]
      (by simp [threeCheckpointSystem, KartProgress.init]) hnot hk2
      [⟨200, 1, 0⟩] [] rfl⟩

end MiniKart
